import Mathlib

/-!
Verification development for the sticky-notes-web icon scripts.

The repository holds two short Python scripts:
* `create_icon.py` — decodes a hardcoded base64 payload and writes the raw
  bytes to a fixed path (the decoder-writer);
* `create_new_icons.py` — procedurally draws a square "sticky note" icon of a
  given pixel size and writes it for sizes 16, 48 and 128 (the icon drawer).

We embed both scripts shallowly: Python integer arithmetic becomes `Nat`/`Int`
arithmetic (Python `//` on non-negative operands is `Nat` division), the
base64 decoder follows the semantics of `base64.b64decode` with its default
non-validating mode (characters outside the alphabet are discarded, improper
padding fails), the filesystem becomes an explicit state record, and the PIL
raster becomes a pixel function together with the exact sequence of drawing
primitive calls the script issues.
-/

/-! ## Base64 decoding (`base64.b64decode`, default non-validating mode) -/

/-- Value of a character in the standard base64 alphabet, `none` for any
character outside the alphabet (including the padding character). -/
def b64Val (c : Char) : Option Nat :=
  if 'A' ≤ c ∧ c ≤ 'Z' then some (c.toNat - 65)
  else if 'a' ≤ c ∧ c ≤ 'z' then some (c.toNat - 97 + 26)
  else if '0' ≤ c ∧ c ≤ '9' then some (c.toNat - 48 + 52)
  else if c = '+' then some 62
  else if c = '/' then some 63
  else none

/-- Decode a base64 character stream four characters at a time.  A quad
`a b = =` yields one byte, `a b c =` yields two, `a b c d` yields three; a
leftover of one to three characters, or a padding character in a data
position, is a decode error (Python raises `binascii.Error`). -/
def decodeQuads : List Char → Option (List Nat)
  | [] => some []
  | a :: b :: '=' :: '=' :: rest => do
      let va ← b64Val a
      let vb ← b64Val b
      let rs ← decodeQuads rest
      some ((va * 4 + vb / 16) :: rs)
  | a :: b :: c :: '=' :: rest => do
      let va ← b64Val a
      let vb ← b64Val b
      let vc ← b64Val c
      let rs ← decodeQuads rest
      some ((va * 4 + vb / 16) :: ((vb % 16) * 16 + vc / 4) :: rs)
  | a :: b :: c :: d :: rest => do
      let va ← b64Val a
      let vb ← b64Val b
      let vc ← b64Val c
      let vd ← b64Val d
      let rs ← decodeQuads rest
      some ((va * 4 + vb / 16) :: ((vb % 16) * 16 + vc / 4) :: ((vc % 4) * 64 + vd) :: rs)
  | _ => none

/-- Python `base64.b64decode` in its default mode: characters outside the
base64 alphabet (other than padding) are discarded, then the stream is decoded
quad by quad; `none` models a raised `binascii.Error` (a DecodeError). -/
def b64decode (s : String) : Option (List Nat) :=
  decodeQuads (s.data.filter fun c => (b64Val c).isSome || c = '=')

/-! ## Filesystem state -/

/-- Filesystem state: the set of directories known to exist and the byte
content of each file path. -/
@[ext]
structure FS where
  dirs : List String
  files : String → Option (List Nat)

/-- Opening a path with mode `wb` and writing all bytes: the path now maps to
exactly the written byte sequence. -/
def writeFile (path : String) (data : List Nat) (fs : FS) : FS :=
  { fs with files := fun q => if q = path then some data else fs.files q }

/-- Reading a file back returns its recorded byte content. -/
def readFile (fs : FS) (path : String) : Option (List Nat) :=
  fs.files path

/-- Python `os.makedirs(path, exist_ok=True)`: create the directory if it is
missing; if it already exists this is a no-op that does not fail. -/
def makedirs (path : String) (fs : FS) : FS :=
  if path ∈ fs.dirs then fs else { fs with dirs := path :: fs.dirs }

/-! ## The decoder-writer script (`create_icon.py`) -/

/-- The base64 payload hardcoded in `create_icon.py`. -/
def icon_base64 : String :=
  "iVBORw0KGgoAAAANSUhEUgAAAIAAAACACAYAAADDPmHLAAAAAXNSR0IArs4c6QAAAARnQU1BAACxjwv8YQUAAAAJcEhZcwAADsMAAA7DAcdvqGQAAABTSURBVHhe7cExAQAAAMKg9U9tDQ+gAAAAAAAAAAAAAAAAAAAAAAAAAAAAAAAAAAAAAAAAAAAAAAAAAAAAAAAAAAAAAAAAAAAAAAAAAAAAAAAAAOBvDLQAAf5MuegAAAAASUVORK5CYII="

/-- Destination path hardcoded in `create_icon.py`. -/
def icon_path : String := "/home/ubuntu/sticky-notes-web/client/public/icon-128.png"

/-- Outcome of running the decoder-writer: either the final filesystem state,
or a DecodeError raised with the filesystem in the given (untouched) state. -/
inductive RunResult where
  | ok (fs : FS)
  | decodeError (fs : FS)

/-- The decoder-writer script: `icon_data = base64.b64decode(payload)` runs
first; only if it succeeds is the output file opened and written.  A decode
failure raises before any file operation, leaving the filesystem unchanged. -/
def runCreateIcon (payload : String) (fs : FS) : RunResult :=
  match b64decode payload with
  | none => RunResult.decodeError fs
  | some d => RunResult.ok (writeFile icon_path d fs)

/-! ## The icon drawer (`create_new_icons.py`) -/

/-- RGBA color with one byte per channel. -/
structure Color where
  r : Nat
  g : Nat
  b : Nat
  a : Nat
deriving DecidableEq, Repr

/-- The note body fill `#FEF08A`. -/
def noteYellow : Color := ⟨254, 240, 138, 255⟩

/-- The decorative line fill `#D97706` (amber). -/
def amber : Color := ⟨217, 119, 6, 255⟩

/-- The shadow fill `(0, 0, 0, 50)`. -/
def shadowBlack : Color := ⟨0, 0, 0, 50⟩

/-- `padding = size // 8`: the inset margin of the note body. -/
def padding (size : Nat) : Nat := size / 8

/-- `rect_coords = [padding, padding, size - padding, size - padding]`. -/
def rect_coords (size : Nat) : List Int :=
  [(padding size : Int), (padding size : Int),
   (size : Int) - padding size, (size : Int) - padding size]

/-- `shadow_offset = size // 16`. -/
def shadow_offset (size : Nat) : Nat := size / 16

/-- `shadow_coords`: the body rectangle shifted down-and-right by the shadow
offset. -/
def shadow_coords (size : Nat) : List Int :=
  [(rect_coords size).getD 0 0 + shadow_offset size,
   (rect_coords size).getD 1 0 + shadow_offset size,
   (rect_coords size).getD 2 0 + shadow_offset size,
   (rect_coords size).getD 3 0 + shadow_offset size]

/-- `radius = size // 5`, the rounded-rectangle corner radius. -/
def radius (size : Nat) : Nat := size / 5

/-- `line_x_start = rect_coords[0] + size // 4`. -/
def line_x_start (size : Nat) : Int :=
  (rect_coords size).getD 0 0 + (size / 4 : Nat)

/-- `line_x_end = rect_coords[2] - size // 4`. -/
def line_x_end (size : Nat) : Int :=
  (rect_coords size).getD 2 0 - (size / 4 : Nat)

/-- `line_y_start = rect_coords[1] + size // 3`. -/
def line_y_start (size : Nat) : Int :=
  (rect_coords size).getD 1 0 + (size / 3 : Nat)

/-- `line_spacing = size // 6`. -/
def line_spacing (size : Nat) : Nat := size / 6

/-- `width = size // 12`, the stroke width of the decorative lines. -/
def line_width (size : Nat) : Nat := size / 12

/-- A drawing primitive call issued by the script: a filled rounded rectangle
or a stroked line segment, with the exact arguments passed to PIL. -/
inductive DrawOp where
  | rrect (coords : List Int) (radius : Int) (fill : Color)
  | line (coords : List Int) (fill : Color) (width : Int)
deriving DecidableEq, Repr

/-- Whether a primitive call is a line stroke. -/
def isLineOp : DrawOp → Bool
  | DrawOp.line _ _ _ => true
  | DrawOp.rrect _ _ _ => false

/-- The exact sequence of drawing primitive calls `create_icon(size, ·)`
issues, in order: shadow rectangle, note body, then the two decorative
lines. -/
def createIconOps (size : Nat) : List DrawOp :=
  [DrawOp.rrect (shadow_coords size) (radius size : Nat) shadowBlack,
   DrawOp.rrect (rect_coords size) (radius size : Nat) noteYellow,
   DrawOp.line [line_x_start size, line_y_start size,
                line_x_end size, line_y_start size] amber (line_width size : Nat),
   DrawOp.line [line_x_start size, line_y_start size + (line_spacing size : Int),
                line_x_end size, line_y_start size + (line_spacing size : Int)]
     amber (line_width size : Nat)]

/-- An in-memory raster: pixel dimensions and a pixel lookup function. -/
structure Image where
  width : Nat
  height : Nat
  pix : Nat → Nat → Color

/-- Membership of a point in a filled rounded rectangle with the given
bounding coordinates and corner radius (rectangle minus the four corner
squares outside their quarter disks). -/
def coversRRect (coords : List Int) (r : Int) (x y : Int) : Bool :=
  let x0 := coords.getD 0 0
  let y0 := coords.getD 1 0
  let x1 := coords.getD 2 0
  let y1 := coords.getD 3 0
  decide (x0 ≤ x) && decide (x ≤ x1) && decide (y0 ≤ y) && decide (y ≤ y1) &&
  (!(decide (x < x0 + r) && decide (y < y0 + r)) ||
     decide ((x - (x0 + r)) ^ 2 + (y - (y0 + r)) ^ 2 ≤ r ^ 2)) &&
  (!(decide (x1 - r < x) && decide (y < y0 + r)) ||
     decide ((x - (x1 - r)) ^ 2 + (y - (y0 + r)) ^ 2 ≤ r ^ 2)) &&
  (!(decide (x < x0 + r) && decide (y1 - r < y)) ||
     decide ((x - (x0 + r)) ^ 2 + (y - (y1 - r)) ^ 2 ≤ r ^ 2)) &&
  (!(decide (x1 - r < x) && decide (y1 - r < y)) ||
     decide ((x - (x1 - r)) ^ 2 + (y - (y1 - r)) ^ 2 ≤ r ^ 2))

/-- Membership of a point in a stroked line segment of the given width,
modelled as the axis-aligned band around the segment (the script only draws
horizontal lines, for which this is the rasterized thick stroke). -/
def coversLine (coords : List Int) (w : Int) (x y : Int) : Bool :=
  let xa := coords.getD 0 0
  let ya := coords.getD 1 0
  let xb := coords.getD 2 0
  let yb := coords.getD 3 0
  decide (min xa xb ≤ x) && decide (x ≤ max xa xb) &&
  decide (min ya yb - w / 2 ≤ y) && decide (y ≤ max ya yb + w / 2)

/-- Apply one drawing primitive to the raster: pixels covered by the shape
take its fill color, all others are unchanged; dimensions never change. -/
def applyOp (img : Image) (op : DrawOp) : Image :=
  match op with
  | DrawOp.rrect coords r fill =>
      { img with pix := fun x y =>
          if coversRRect coords r x y then fill else img.pix x y }
  | DrawOp.line coords fill w =>
      { img with pix := fun x y =>
          if coversLine coords w x y then fill else img.pix x y }

/-- `create_icon(size, ·)` up to the point the raster is complete: a fresh
transparent `size × size` RGBA image with all four primitive calls applied in
program order. -/
def create_icon (size : Nat) : Image :=
  (createIconOps size).foldl applyOp
    { width := size, height := size, pix := fun _ _ => ⟨0, 0, 0, 0⟩ }

/-- Deterministic serialization of the raster written to disk, row-major with
four bytes per pixel (the PNG encoding modelled as an injective function of
the pixel grid). -/
def Image.bytes (img : Image) : List Nat :=
  (List.range img.height).flatMap fun y =>
    (List.range img.width).flatMap fun x =>
      [(img.pix x y).r, (img.pix x y).g, (img.pix x y).b, (img.pix x y).a]

/-- The icons output directory hardcoded in `create_new_icons.py`. -/
def icons_dir : String := "/home/ubuntu/sticky-notes-web/client/public/icons"

/-- The three `create_icon(...)` calls of the script: each renders its raster
and writes the serialized bytes to its own path under the icons directory. -/
def write_icons (fs : FS) : FS :=
  writeFile (icons_dir ++ "/icon128.png") (Image.bytes (create_icon 128))
    (writeFile (icons_dir ++ "/icon48.png") (Image.bytes (create_icon 48))
      (writeFile (icons_dir ++ "/icon16.png") (Image.bytes (create_icon 16)) fs))

/-- The whole `create_new_icons.py` script: `os.makedirs(..., exist_ok=True)`
first, then the three icon writes. -/
def run_create_new_icons (fs : FS) : FS :=
  write_icons (makedirs icons_dir fs)

/-! ## Helper lemmas -/

/-- Drawing primitives never change the raster width. -/
theorem applyOp_width (img : Image) (op : DrawOp) : (applyOp img op).width = img.width := by
  cases op <;> rfl

/-- Drawing primitives never change the raster height. -/
theorem applyOp_height (img : Image) (op : DrawOp) : (applyOp img op).height = img.height := by
  cases op <;> rfl

/-- Folding any sequence of drawing primitives preserves the raster width. -/
theorem foldl_applyOp_width (ops : List DrawOp) :
    ∀ img : Image, (ops.foldl applyOp img).width = img.width := by
  induction ops with
  | nil => intro img; rfl
  | cons op rest ih =>
      intro img
      rw [List.foldl_cons, ih, applyOp_width]

/-- Folding any sequence of drawing primitives preserves the raster height. -/
theorem foldl_applyOp_height (ops : List DrawOp) :
    ∀ img : Image, (ops.foldl applyOp img).height = img.height := by
  induction ops with
  | nil => intro img; rfl
  | cons op rest ih =>
      intro img
      rw [List.foldl_cons, ih, applyOp_height]

/-! ## Claims -/

/-- C1 counterexample: the claim places the first decorative line one-third of
the drawing-region height below the region's top edge, but at size 128 the
code puts it `128 // 3 = 42` pixels below, while one-third of the region
height is `(112 - 16) / 3 = 32`. -/
theorem c1_region_height_cex :
    ¬ (line_y_start 128 =
        (rect_coords 128).getD 1 0 +
          ((rect_coords 128).getD 3 0 - (rect_coords 128).getD 1 0) / 3) := by
  decide

/-- C1 (amended): for every size S > 0 the drawer issues exactly two line
strokes, horizontally inset `S // 4` from each side of the body, the first
placed `S // 3` (one-third of the size, not of the region height) below the
body's top edge, the second `S // 6` below the first, each of stroke width
`S // 12` and the fixed amber color `#D97706`. -/
theorem c1_decorative_lines (S : Nat) (h : 0 < S) :
    (createIconOps S).filter isLineOp =
      [DrawOp.line [line_x_start S, line_y_start S, line_x_end S, line_y_start S]
         ⟨217, 119, 6, 255⟩ ((S / 12 : Nat) : Int),
       DrawOp.line [line_x_start S, line_y_start S + ((S / 6 : Nat) : Int),
                    line_x_end S, line_y_start S + ((S / 6 : Nat) : Int)]
         ⟨217, 119, 6, 255⟩ ((S / 12 : Nat) : Int)] ∧
    line_x_start S = (rect_coords S).getD 0 0 + ((S / 4 : Nat) : Int) ∧
    line_x_end S = (rect_coords S).getD 2 0 - ((S / 4 : Nat) : Int) ∧
    line_y_start S = (rect_coords S).getD 1 0 + ((S / 3 : Nat) : Int) := by
  refine ⟨?_, rfl, rfl, rfl⟩
  simp [createIconOps, isLineOp, List.filter, amber, line_width, line_spacing]

/-- C1 witness: the amended statement instantiated at size 128. -/
theorem c1_decorative_lines_witness :
    line_y_start 128 = (rect_coords 128).getD 1 0 + ((128 / 3 : Nat) : Int) :=
  (c1_decorative_lines 128 (by decide)).2.2.2

/-- C2: for every payload that decodes successfully, the decoder-writer
writes the decoded bytes to the output path, and reading that file back
returns exactly the decoded byte sequence. -/
theorem decode_write_read_roundtrip (s : String) (d : List Nat) (fs : FS)
    (h : b64decode s = some d) :
    runCreateIcon s fs = RunResult.ok (writeFile icon_path d fs) ∧
    readFile (writeFile icon_path d fs) icon_path = some d := by
  constructor
  · unfold runCreateIcon
    rw [h]
  · simp [readFile, writeFile]

/-- C2 witness: the round trip at the valid payload `"YQ=="`, which decodes
to the single byte 97. -/
theorem decode_write_read_roundtrip_witness :
    runCreateIcon "YQ==" ⟨[], fun _ => none⟩ =
      RunResult.ok (writeFile icon_path [97] ⟨[], fun _ => none⟩) ∧
    readFile (writeFile icon_path [97] ⟨[], fun _ => none⟩) icon_path = some [97] :=
  decode_write_read_roundtrip "YQ==" [97] ⟨[], fun _ => none⟩ (by decide)

/-- C3: for every size S > 0 the raster produced by the drawer is exactly
S pixels wide and S pixels high. -/
theorem icon_dimensions (S : Nat) (h : 0 < S) :
    (create_icon S).width = S ∧ (create_icon S).height = S := by
  unfold create_icon
  rw [foldl_applyOp_width, foldl_applyOp_height]
  exact ⟨rfl, rfl⟩

/-- C3 witness: the raster for size 16 is 16 × 16. -/
theorem icon_dimensions_witness : (create_icon 16).width = 16 ∧ (create_icon 16).height = 16 :=
  icon_dimensions 16 (by decide)

/-- C4: for every size S ≥ 16 the shadow offset `S // 16` is strictly less
than the margin `S // 8`. -/
theorem shadow_offset_lt_margin (S : Nat) (h : 16 ≤ S) :
    shadow_offset S < padding S := by
  unfold shadow_offset padding
  omega

/-- C4 witness: at size 16 the shadow offset 1 is less than the margin 2. -/
theorem shadow_offset_lt_margin_witness : shadow_offset 16 < padding 16 :=
  shadow_offset_lt_margin 16 (by decide)

/-- C5: the derived measurements at size 128 are margin 16, corner radius 25,
shadow offset 8 and stroke width 10; at size 16 they are 2, 3, 1 and 1; and
no computed coordinate at either size is negative. -/
theorem derived_measurements :
    padding 128 = 16 ∧ radius 128 = 25 ∧ shadow_offset 128 = 8 ∧ line_width 128 = 10 ∧
    padding 16 = 2 ∧ radius 16 = 3 ∧ shadow_offset 16 = 1 ∧ line_width 16 = 1 ∧
    (∀ c ∈ rect_coords 128, 0 ≤ c) ∧ (∀ c ∈ shadow_coords 128, 0 ≤ c) ∧
    (∀ c ∈ rect_coords 16, 0 ≤ c) ∧ (∀ c ∈ shadow_coords 16, 0 ≤ c) ∧
    0 ≤ line_x_start 16 ∧ 0 ≤ line_x_end 16 ∧ 0 ≤ line_y_start 16 ∧
    0 ≤ line_y_start 16 + (line_spacing 16 : Int) ∧
    0 ≤ line_x_start 128 ∧ 0 ≤ line_x_end 128 ∧ 0 ≤ line_y_start 128 ∧
    0 ≤ line_y_start 128 + (line_spacing 128 : Int) := by
  decide

/-- C6: whenever base64 decoding of the payload fails, the decoder-writer
stops with a DecodeError and the filesystem is left exactly as it was —
no file is opened, created or modified. -/
theorem decode_failure_atomic (s : String) (fs : FS) (h : b64decode s = none) :
    runCreateIcon s fs = RunResult.decodeError fs := by
  unfold runCreateIcon
  rw [h]

/-- C6 witness: the invalid payload `"a"` fails to decode and leaves the
empty filesystem untouched. -/
theorem decode_failure_atomic_witness :
    runCreateIcon "a" ⟨[], fun _ => none⟩ = RunResult.decodeError ⟨[], fun _ => none⟩ :=
  decode_failure_atomic "a" ⟨[], fun _ => none⟩ (by decide)

/-- Applying the three icon writes twice produces the same filesystem as
applying them once: each path is overwritten with the same byte sequence. -/
theorem write_icons_idem (g : FS) : write_icons (write_icons g) = write_icons g := by
  unfold write_icons writeFile
  refine FS.ext rfl ?_
  funext q
  by_cases h1 : q = icons_dir ++ "/icon128.png" <;>
    by_cases h2 : q = icons_dir ++ "/icon48.png" <;>
      by_cases h3 : q = icons_dir ++ "/icon16.png" <;>
        simp [h1, h2, h3]

/-- Writing a file never changes the set of directories. -/
theorem write_icons_dirs (g : FS) : (write_icons g).dirs = g.dirs := rfl

/-- After `makedirs`, the directory exists. -/
theorem makedirs_mem (d : String) (fs : FS) : d ∈ (makedirs d fs).dirs := by
  unfold makedirs
  split
  · assumption
  · exact List.mem_cons_self _ _

/-- When the directory already exists, `makedirs` is the identity. -/
theorem makedirs_of_mem (d : String) (fs : FS) (h : d ∈ fs.dirs) : makedirs d fs = fs := by
  unfold makedirs
  simp [h]

/-- C7: the icon drawer is deterministic — equal sizes give identical rasters
(the raster is a pure function of the size, with no other input) — and
re-running the whole script leaves the filesystem exactly as after the first
run, overwriting each destination with byte-identical output. -/
theorem drawer_deterministic_idempotent :
    (∀ S, create_icon S = create_icon S) ∧
    (∀ fs : FS, run_create_new_icons (run_create_new_icons fs) = run_create_new_icons fs) := by
  refine ⟨fun _ => rfl, fun fs => ?_⟩
  have hmem : icons_dir ∈ (run_create_new_icons fs).dirs := by
    rw [run_create_new_icons, write_icons_dirs]
    exact makedirs_mem _ _
  show write_icons (makedirs icons_dir (run_create_new_icons fs)) = run_create_new_icons fs
  rw [makedirs_of_mem _ _ hmem, run_create_new_icons, write_icons_idem]

/-- C8: the icons directory creation is idempotent and harmless — it makes the
directory exist, touches no file contents, and is a no-op when the directory
already exists — and the script performs it before the three icon writes. -/
theorem makedirs_idempotent (d : String) (fs : FS) :
    d ∈ (makedirs d fs).dirs ∧
    (makedirs d fs).files = fs.files ∧
    (d ∈ fs.dirs → makedirs d fs = fs) ∧
    run_create_new_icons fs = write_icons (makedirs icons_dir fs) := by
  refine ⟨makedirs_mem d fs, ?_, makedirs_of_mem d fs, rfl⟩
  unfold makedirs
  split <;> rfl

/-- C8 witness: creating an already-present directory changes nothing. -/
theorem makedirs_idempotent_witness :
    makedirs "a" ⟨["a"], fun _ => none⟩ = (⟨["a"], fun _ => none⟩ : FS) :=
  (makedirs_idempotent "a" ⟨["a"], fun _ => none⟩).2.2.1 (by decide)

set_option maxRecDepth 100000 in
/-- C9: the payload hardcoded in `create_icon.py` is valid base64, so the
decode step succeeds and the DecodeError branch of the decoder-writer is
unreachable: on every starting filesystem the run ends in the `ok` state. -/
theorem payload_valid :
    (b64decode icon_base64).isSome = true ∧
    ∀ fs : FS, ∃ g : FS, runCreateIcon icon_base64 fs = RunResult.ok g := by
  have h : (b64decode icon_base64).isSome = true := by decide
  refine ⟨h, fun fs => ?_⟩
  obtain ⟨d, hd⟩ := Option.isSome_iff_exists.mp h
  refine ⟨writeFile icon_path d fs, ?_⟩
  unfold runCreateIcon
  rw [hd]

/-- C10: for every size S ≥ 1 all computed geometry is valid — the body
rectangle insets satisfy `0 ≤ padding ≤ S − padding`, every shadow coordinate
is non-negative with left ≤ right and top ≤ bottom, and the decorative lines
run left to right. -/
theorem geometry_valid (S : Nat) (h : 1 ≤ S) :
    (0 ≤ (padding S : Int) ∧ (padding S : Int) ≤ (S : Int) - padding S) ∧
    (0 ≤ (shadow_coords S).getD 0 0 ∧ 0 ≤ (shadow_coords S).getD 1 0 ∧
     0 ≤ (shadow_coords S).getD 2 0 ∧ 0 ≤ (shadow_coords S).getD 3 0) ∧
    ((shadow_coords S).getD 0 0 ≤ (shadow_coords S).getD 2 0 ∧
     (shadow_coords S).getD 1 0 ≤ (shadow_coords S).getD 3 0) ∧
    line_x_start S ≤ line_x_end S := by
  simp only [shadow_coords, rect_coords, line_x_start, line_x_end, padding, shadow_offset,
    List.getD_cons_zero, List.getD_cons_succ]
  refine ⟨⟨?_, ?_⟩, ⟨?_, ?_, ?_, ?_⟩, ⟨?_, ?_⟩, ?_⟩ <;> omega

/-- C10 witness: the geometry is valid at size 16. -/
theorem geometry_valid_witness : line_x_start 16 ≤ line_x_end 16 :=
  (geometry_valid 16 (by decide)).2.2.2
